import Mathlib

/-!
Verification of the PlantCare Manager collection store, dashboard
derivations, and form validation, as implemented in `App.jsx`,
`Dashboard.jsx`, `PlantManager.jsx` and `PlantForm.jsx`.

Modelling conventions:
* Calendar dates are stored by the app as ISO `YYYY-MM-DD` strings whose
  lexicographic order coincides with chronological order; we model a date
  as an integer day number (`Int`), and `new Date()` day arithmetic as
  integer addition.
* The numeric plant id (`Date.now()`) is modelled as an `Int` supplied by
  the caller, like the current date.
* JavaScript strings are modelled as Lean `String`s; `toLowerCase`,
  `trim` and `includes` are modelled on the underlying character lists
  (the app's data is ASCII).
-/

namespace PlantCare

/-- Plant record, with the field set assigned in `addPlant` (App.jsx):
the form fields plus `id`, `lastWatered`, `nextWatering`, `createdAt`. -/
structure Plant where
  id : Int
  name : String
  «type» : String
  image : String
  wateringFrequency : Int
  sunlight : String
  temperature : String
  humidity : String
  health : String
  notes : String
  lastWatered : Int
  nextWatering : Int
  createdAt : Int
deriving DecidableEq

/-- Form data passed to `onAddPlant` (PlantForm.jsx `formData`): all
plant fields except the ones `addPlant` derives. -/
structure PlantDraft where
  name : String
  «type» : String
  image : String
  wateringFrequency : Int
  sunlight : String
  temperature : String
  humidity : String
  health : String
  notes : String
deriving DecidableEq

/-- Partial-field record passed to `updatePlant` as `updatedData`; a
`none` field is a key absent from the JavaScript object, a `some` field
a key present in it. -/
structure PlantUpdate where
  id : Option Int := none
  name : Option String := none
  «type» : Option String := none
  image : Option String := none
  wateringFrequency : Option Int := none
  sunlight : Option String := none
  temperature : Option String := none
  humidity : Option String := none
  health : Option String := none
  notes : Option String := none
  lastWatered : Option Int := none
  nextWatering : Option Int := none
  createdAt : Option Int := none
deriving DecidableEq

/-- Spread merge `\x7b ...plant, ...updatedData \x7d` from `updatePlant`
(App.jsx line 83): a key present in `updatedData` overrides the plant's
value, an absent key keeps it. -/
def applyUpdate (plant : Plant) (u : PlantUpdate) : Plant where
  id := u.id.getD plant.id
  name := u.name.getD plant.name
  «type» := u.«type».getD plant.«type»
  image := u.image.getD plant.image
  wateringFrequency := u.wateringFrequency.getD plant.wateringFrequency
  sunlight := u.sunlight.getD plant.sunlight
  temperature := u.temperature.getD plant.temperature
  humidity := u.humidity.getD plant.humidity
  health := u.health.getD plant.health
  notes := u.notes.getD plant.notes
  lastWatered := u.lastWatered.getD plant.lastWatered
  nextWatering := u.nextWatering.getD plant.nextWatering
  createdAt := u.createdAt.getD plant.createdAt

/-- App.jsx `calculateNextWatering`: adds `frequency` days to the current
date and returns the date portion. `today` is the current date as a day
number. -/
def calculateNextWatering (today frequency : Int) : Int :=
  today + frequency

/-- App.jsx `addPlant`: spreads the form data, assigns `id` (from
`Date.now()`, here the parameter `newId`), `lastWatered` and `createdAt`
(both today) and `nextWatering`, and appends the result. -/
def addPlant (plants : List Plant) (newPlant : PlantDraft) (today newId : Int) :
    List Plant :=
  plants ++ [{ id := newId
               name := newPlant.name
               «type» := newPlant.«type»
               image := newPlant.image
               wateringFrequency := newPlant.wateringFrequency
               sunlight := newPlant.sunlight
               temperature := newPlant.temperature
               humidity := newPlant.humidity
               health := newPlant.health
               notes := newPlant.notes
               lastWatered := today
               nextWatering := calculateNextWatering today newPlant.wateringFrequency
               createdAt := today }]

/-- App.jsx `deletePlant`: keeps exactly the plants whose id differs from
the given one. -/
def deletePlant (plants : List Plant) (plantId : Int) : List Plant :=
  plants.filter (fun plant => plant.id ≠ plantId)

/-- App.jsx `updatePlant`: maps over the collection, merging the partial
data into every plant whose id matches and keeping the others. -/
def updatePlant (plants : List Plant) (plantId : Int) (updatedData : PlantUpdate) :
    List Plant :=
  plants.map (fun plant =>
    if plant.id = plantId then applyUpdate plant updatedData else plant)

/-- App.jsx `waterPlant`: finds the plant with the given id; if found,
updates every entry with that id with `lastWatered := today` and
`nextWatering := calculateNextWatering today foundPlant.wateringFrequency`
(note: the frequency of the entry returned by `find`); otherwise no-op. -/
def waterPlant (plants : List Plant) (plantId : Int) (today : Int) : List Plant :=
  match plants.find? (fun p => p.id == plantId) with
  | some plant =>
      updatePlant plants plantId
        { lastWatered := some today
          nextWatering := some (calculateNextWatering today plant.wateringFrequency) }
  | none => plants

/-! Persistence (App.jsx load/persist effects).

`localStorage.getItem('plantcare-plants')` yields `null` when nothing is
stored, and the code's `if (savedPlants)` treats any non-empty string as
present. `JSON.stringify` of an array is never an empty string, and
`JSON.parse` of such a string either returns the array or throws.  We
model the stored value by its three behaviourally distinct cases. -/

/-- Persisted value under the `plantcare-plants` key: absent (a `null`
or empty, hence falsy, stored value), corrupt (a non-empty string that
`JSON.parse` rejects, making it throw), or a serialized collection. -/
inductive StoredValue where
  | absent : StoredValue
  | corrupt : StoredValue
  | coll : List Plant → StoredValue
deriving DecidableEq

/-- App.jsx persist effect: `JSON.stringify(plants)` written to the key.
Serializing a list of plant records always yields a non-empty string
that parses back to an equal list. -/
def serialize (plants : List Plant) : StoredValue :=
  StoredValue.coll plants

/-- Modelled from the spec: the fixed seed dataset. The file
`src/data/samplePlants.js` is not among the provided sources; the spec
describes it as a fixed, non-empty sample collection used for first-time
users (seed dataset). Its exact records are irrelevant to the claims;
only that it is a fixed non-empty list is used. -/
def samplePlants : List Plant :=
  [{ id := 1
     name := "Monstera Deliciosa"
     «type» := "Indoor Tropical"
     image := ""
     wateringFrequency := 7
     sunlight := "Bright indirect"
     temperature := "18-30"
     humidity := "Medium"
     health := "Excellent"
     notes := ""
     lastWatered := 0
     nextWatering := 7
     createdAt := 0 },
   { id := 2
     name := "Snake Plant"
     «type» := "Succulent"
     image := ""
     wateringFrequency := 14
     sunlight := "Low light"
     temperature := "15-28"
     humidity := "Low"
     health := "Good"
     notes := ""
     lastWatered := 0
     nextWatering := 14
     createdAt := 0 }]

/-- App.jsx load effect: if the stored value is truthy it is parsed
(`JSON.parse` throws on a corrupt value, modelled by `Except.error`);
otherwise the state is seeded with `samplePlants`. -/
def loadPlants (saved : StoredValue) : Except Unit (List Plant) :=
  match saved with
  | StoredValue.absent => Except.ok samplePlants
  | StoredValue.corrupt => Except.error ()
  | StoredValue.coll plants => Except.ok plants

/-! Dashboard derivations (Dashboard.jsx). `today` is the current date
as a day number (the source uses the ISO date string, compared
lexicographically, which agrees with the numeric order). -/

/-- Dashboard.jsx `stats.needWatering`: the number of plants with
`nextWatering <= today`. -/
def needWateringCount (plants : List Plant) (today : Int) : Nat :=
  (plants.filter (fun plant => plant.nextWatering ≤ today)).length

/-- Dashboard.jsx `plantsNeedingWater`: the plants due today or
overdue, in collection order (no sort, no cap). -/
def plantsNeedingWater (plants : List Plant) (today : Int) : List Plant :=
  plants.filter (fun plant => plant.nextWatering ≤ today)

/-- Ordering used by the upcoming-schedule sort,
`(a, b) => new Date(a.nextWatering) - new Date(b.nextWatering)`:
ascending next-watering date. -/
def byNextWatering (a b : Plant) : Prop :=
  a.nextWatering ≤ b.nextWatering

instance : DecidableRel byNextWatering :=
  fun a b => Int.decLe a.nextWatering b.nextWatering

instance : IsTotal Plant byNextWatering :=
  ⟨fun a b => Int.le_total a.nextWatering b.nextWatering⟩

instance : IsTrans Plant byNextWatering :=
  ⟨fun _ _ _ => Int.le_trans⟩

/-- Dashboard.jsx upcoming list: plants with `nextWatering > today`,
sorted ascending by next-watering date, then `slice(0, 5)`. -/
def upcomingWatering (plants : List Plant) (today : Int) : List Plant :=
  (List.insertionSort byNextWatering
    (plants.filter (fun plant => today < plant.nextWatering))).take 5

/-! Plant-manager filtering (PlantManager.jsx) and the add-plant form
(PlantForm.jsx). -/

/-- Character-list model of `String.prototype.toLowerCase()` on the
app's ASCII data. -/
def lowerData (s : String) : List Char :=
  s.data.map Char.toLower

/-- PlantManager.jsx filter predicate: the lowercased search term is a
substring (`includes`) of the lowercased name or of the lowercased
type, and the type filter is `"all"` or equals the plant's type. -/
def plantMatches (searchTerm filterType : String) (plant : Plant) : Bool :=
  (decide (lowerData searchTerm <:+: lowerData plant.name) ||
     decide (lowerData searchTerm <:+: lowerData plant.«type»)) &&
  (filterType == "all" || plant.«type» == filterType)

/-- PlantManager.jsx `filteredPlants`. -/
def filteredPlants (plants : List Plant) (searchTerm filterType : String) :
    List Plant :=
  plants.filter (plantMatches searchTerm filterType)

/-- Character-list model of `String.prototype.trim()`: drop whitespace
from both ends. -/
def trimChars (s : List Char) : List Char :=
  ((s.dropWhile Char.isWhitespace).reverse.dropWhile Char.isWhitespace).reverse

/-- PlantForm.jsx `handleSubmit`: if the trimmed name is truthy
(non-empty) the form data is passed to `onAddPlant` unchanged;
otherwise nothing is submitted. -/
def handleSubmit (formData : PlantDraft) : Option PlantDraft :=
  if trimChars formData.name.data = [] then none else some formData

/-- PlantForm.jsx watering-frequency `onChange` handler,
`parseInt(e.target.value) || 1`: a failed parse (`NaN`, modelled as
`none`) and a parsed `0` are falsy and default to 1; any other parsed
integer is stored unchanged. -/
def wateringFrequencyOnChange (parsed : Option Int) : Int :=
  match parsed with
  | none => 1
  | some n => if n = 0 then 1 else n

/-! Concrete sample values used by witnesses and counterexamples. -/

/-- Concrete plant with the given id, watering frequency, last-watered
and next-watering day numbers (remaining fields fixed). -/
def mkPlant (i f lw nw : Int) : Plant :=
  { id := i
    name := ""
    «type» := ""
    image := ""
    wateringFrequency := f
    sunlight := ""
    temperature := ""
    humidity := ""
    health := "Good"
    notes := ""
    lastWatered := lw
    nextWatering := nw
    createdAt := 0 }

/-- Concrete form draft with a non-empty name. -/
def sampleDraft : PlantDraft :=
  { name := "Rose"
    «type» := "Flowering"
    image := ""
    wateringFrequency := 3
    sunlight := "Bright indirect"
    temperature := "18-30"
    humidity := "Medium"
    health := "Good"
    notes := "" }

/-- Concrete plant named "Rose". -/
def rosePlant : Plant :=
  { mkPlant 10 3 0 3 with name := "Rose"
                          «type» := "Flowering" }

/-- Concrete plant whose type string contains "rose" case-insensitively. -/
def rosemaryPlant : Plant :=
  { mkPlant 11 5 0 5 with name := "Herb pot"
                          «type» := "Rosemary" }

end PlantCare

deriving instance DecidableEq for Except

namespace PlantCare

/-! Claims. -/

/-- C1 (counterexample): the claim fails on the code at a corrupt
persisted value and at a serialized empty collection. `JSON.parse`
throws on an unparseable non-empty stored string, so the load yields no
collection at all instead of the seed dataset; and a serialized empty
collection is a truthy stored string, so it reloads as the empty
collection, not the seed dataset. -/
theorem loadPlants_corrupt_and_empty_counterexample :
    loadPlants StoredValue.corrupt = Except.error () ∧
    loadPlants StoredValue.corrupt ≠ Except.ok samplePlants ∧
    loadPlants (serialize []) = Except.ok [] ∧
    loadPlants (serialize []) ≠ Except.ok samplePlants := by
  decide

/-- C1 (amended): on an absent persisted value the loaded collection
equals the fixed seed dataset; serializing any collection (the empty
collection included) and reloading it reproduces an equal collection
(same ids, same field values); an unparseable persisted value makes the
load throw rather than fall back to the seed dataset. -/
theorem loadPlants_spec (plants : List Plant) :
    loadPlants StoredValue.absent = Except.ok samplePlants ∧
    loadPlants (serialize plants) = Except.ok plants ∧
    loadPlants StoredValue.corrupt = Except.error () :=
  ⟨rfl, rfl, rfl⟩

/-- C2 (counterexample): on a collection with two entries sharing id 1
(frequencies 3 and 5), watering id 1 on day 10 sets both entries'
nextWatering to 13, computed from the found (first) entry's frequency:
the second entry's nextWatering is not its own lastWatered plus its own
wateringFrequency, which would be 15. -/
theorem waterPlant_duplicate_id_counterexample :
    waterPlant [mkPlant 1 3 0 3, mkPlant 1 5 0 5] 1 10 =
      [mkPlant 1 3 10 13, mkPlant 1 5 10 13] ∧
    (10 : Int) + 5 ≠ 13 := by
  decide

/-- C2 (amended): on a collection whose ids are distinct, if no entry
has the given id then watering leaves the collection unchanged; if an
entry has the id, watering sets that entry's lastWatered to the current
date and its nextWatering to the current date plus its
wateringFrequency, regardless of the entry's prior values. -/
theorem waterPlant_spec (plants : List Plant) (plantId today : Int)
    (hids : (plants.map Plant.id).Nodup) :
    ((∀ p ∈ plants, p.id ≠ plantId) → waterPlant plants plantId today = plants) ∧
    ((∃ p ∈ plants, p.id = plantId) →
      waterPlant plants plantId today = plants.map (fun p =>
        if p.id = plantId then
          { p with lastWatered := today
                   nextWatering := calculateNextWatering today p.wateringFrequency }
        else p)) := by
  constructor
  · intro h
    have hfind : plants.find? (fun p => p.id == plantId) = none := by
      rw [List.find?_eq_none]
      intro p hp
      simpa using h p hp
    unfold waterPlant
    rw [hfind]
  · rintro ⟨q, hq, hqid⟩
    obtain ⟨r, hr⟩ : ∃ r, plants.find? (fun p => p.id == plantId) = some r := by
      rw [← Option.isSome_iff_exists, List.find?_isSome]
      exact ⟨q, hq, by simpa using hqid⟩
    have hrmem : r ∈ plants := List.mem_of_find?_eq_some hr
    have hrid : r.id = plantId := by simpa using List.find?_some hr
    unfold waterPlant
    rw [hr]
    unfold updatePlant
    refine List.map_congr_left ?_
    intro p hp
    by_cases hpid : p.id = plantId
    · have hpr : p = r :=
        List.inj_on_of_nodup_map hids hp hrmem (hpid.trans hrid.symm)
      subst hpr
      simp [hpid, applyUpdate]
    · simp [hpid]

/-- C3: adding a plant draft appends exactly one new entry at the end,
leaving all pre-existing entries and their order unchanged; the new
entry carries the newly assigned id, lastWatered and createdAt equal to
today, nextWatering equal to today plus the draft's wateringFrequency,
and hence satisfies nextWatering = lastWatered + wateringFrequency. -/
theorem addPlant_spec (plants : List Plant) (draft : PlantDraft) (today newId : Int) :
    ∃ newEntry : Plant,
      addPlant plants draft today newId = plants ++ [newEntry] ∧
      newEntry.id = newId ∧
      newEntry.lastWatered = today ∧
      newEntry.createdAt = today ∧
      newEntry.nextWatering = today + draft.wateringFrequency ∧
      newEntry.nextWatering = newEntry.lastWatered + newEntry.wateringFrequency ∧
      newEntry.name = draft.name ∧
      newEntry.wateringFrequency = draft.wateringFrequency :=
  ⟨_, rfl, rfl, rfl, rfl, rfl, rfl, rfl, rfl⟩

/-- C4: for every frequency f in [1, 30] and base date d, the
next-watering computation yields d + f days, and recomputing with the
same inputs yields the same result. -/
theorem calculateNextWatering_spec (d f : Int) (h1 : 1 ≤ f) (h30 : f ≤ 30) :
    calculateNextWatering d f = d + f ∧
    calculateNextWatering d f = calculateNextWatering d f :=
  ⟨rfl, rfl⟩

theorem calculateNextWatering_spec_witness :
    (1 : Int) ≤ 7 ∧ (7 : Int) ≤ 30 ∧
    calculateNextWatering 0 7 = 0 + 7 ∧
    calculateNextWatering 0 7 = calculateNextWatering 0 7 :=
  ⟨by decide, by decide, calculateNextWatering_spec 0 7 (by decide) (by decide)⟩

/-- C5: on a collection containing an entry with the given id, update
keeps the length, leaves every entry whose id differs unchanged at its
position, and replaces each matching entry by the merge that takes
exactly the supplied fields from the partial record and retains the
prior value of every field not supplied. -/
theorem updatePlant_spec (plants : List Plant) (plantId : Int) (u : PlantUpdate)
    (hmem : ∃ p ∈ plants, p.id = plantId) :
    (updatePlant plants plantId u).length = plants.length ∧
    (∀ i (hi : i < plants.length) (hi' : i < (updatePlant plants plantId u).length),
      ((plants.get ⟨i, hi⟩).id ≠ plantId →
        (updatePlant plants plantId u).get ⟨i, hi'⟩ = plants.get ⟨i, hi⟩) ∧
      ((plants.get ⟨i, hi⟩).id = plantId →
        (updatePlant plants plantId u).get ⟨i, hi'⟩ =
          applyUpdate (plants.get ⟨i, hi⟩) u)) ∧
    (∀ p : Plant,
      (∀ v, u.id = some v → (applyUpdate p u).id = v) ∧
      (u.id = none → (applyUpdate p u).id = p.id) ∧
      (∀ v, u.name = some v → (applyUpdate p u).name = v) ∧
      (u.name = none → (applyUpdate p u).name = p.name) ∧
      (∀ v, u.«type» = some v → (applyUpdate p u).«type» = v) ∧
      (u.«type» = none → (applyUpdate p u).«type» = p.«type») ∧
      (∀ v, u.image = some v → (applyUpdate p u).image = v) ∧
      (u.image = none → (applyUpdate p u).image = p.image) ∧
      (∀ v, u.wateringFrequency = some v →
        (applyUpdate p u).wateringFrequency = v) ∧
      (u.wateringFrequency = none →
        (applyUpdate p u).wateringFrequency = p.wateringFrequency) ∧
      (∀ v, u.sunlight = some v → (applyUpdate p u).sunlight = v) ∧
      (u.sunlight = none → (applyUpdate p u).sunlight = p.sunlight) ∧
      (∀ v, u.temperature = some v → (applyUpdate p u).temperature = v) ∧
      (u.temperature = none → (applyUpdate p u).temperature = p.temperature) ∧
      (∀ v, u.humidity = some v → (applyUpdate p u).humidity = v) ∧
      (u.humidity = none → (applyUpdate p u).humidity = p.humidity) ∧
      (∀ v, u.health = some v → (applyUpdate p u).health = v) ∧
      (u.health = none → (applyUpdate p u).health = p.health) ∧
      (∀ v, u.notes = some v → (applyUpdate p u).notes = v) ∧
      (u.notes = none → (applyUpdate p u).notes = p.notes) ∧
      (∀ v, u.lastWatered = some v → (applyUpdate p u).lastWatered = v) ∧
      (u.lastWatered = none → (applyUpdate p u).lastWatered = p.lastWatered) ∧
      (∀ v, u.nextWatering = some v → (applyUpdate p u).nextWatering = v) ∧
      (u.nextWatering = none → (applyUpdate p u).nextWatering = p.nextWatering) ∧
      (∀ v, u.createdAt = some v → (applyUpdate p u).createdAt = v) ∧
      (u.createdAt = none → (applyUpdate p u).createdAt = p.createdAt)) := by
  refine ⟨List.length_map plants _, ?_, ?_⟩
  · intro i hi hi'
    constructor
    · intro hne
      have hne' : ¬ plants[i].id = plantId := by simpa using hne
      simp [updatePlant, List.get_map, hne']
    · intro heq
      have heq' : plants[i].id = plantId := by simpa using heq
      simp [updatePlant, List.get_map, heq']
  · intro p
    repeat' apply And.intro
    all_goals first
      | (intro v hv
         simp [applyUpdate, hv])
      | (intro hn
         simp [applyUpdate, hn])

theorem updatePlant_spec_witness :
    (updatePlant [mkPlant 1 3 0 3, mkPlant 2 4 0 4] 1
      { name := some "Fern" }).length = 2 :=
  (updatePlant_spec [mkPlant 1 3 0 3, mkPlant 2 4 0 4] 1 { name := some "Fern" }
    ⟨mkPlant 1 3 0 3, List.mem_cons_self _ _, rfl⟩).1

/-- C6: on a collection with distinct ids, deleting an id that no entry
has leaves the collection unchanged, and deleting an id that an entry
has removes exactly that entry while keeping every other entry and the
relative order. -/
theorem deletePlant_spec (plants : List Plant) (plantId : Int)
    (hids : (plants.map Plant.id).Nodup) :
    ((∀ p ∈ plants, p.id ≠ plantId) → deletePlant plants plantId = plants) ∧
    (∀ l₁ p l₂, plants = l₁ ++ p :: l₂ → p.id = plantId →
      deletePlant plants plantId = l₁ ++ l₂) := by
  constructor
  · intro h
    unfold deletePlant
    rw [List.filter_eq_self]
    intro p hp
    simpa using h p hp
  · intro l₁ p l₂ hsplit hpid
    subst hsplit
    have hids' := hids
    simp only [List.map_append, List.map_cons, List.nodup_append,
      List.nodup_cons, List.disjoint_left, List.mem_map, List.mem_cons] at hids'
    obtain ⟨-, ⟨hnotl₂, -⟩, hdisj⟩ := hids'
    have hl₁ : ∀ q ∈ l₁, q.id ≠ plantId := fun q hq hqp =>
      hdisj ⟨q, hq, rfl⟩ (Or.inl (hqp.trans hpid.symm))
    have hl₂ : ∀ q ∈ l₂, q.id ≠ plantId := fun q hq hqp =>
      hnotl₂ ⟨q, hq, hqp.trans hpid.symm⟩
    have hself : ∀ l : List Plant, (∀ q ∈ l, q.id ≠ plantId) →
        List.filter (fun plant => decide (plant.id ≠ plantId)) l = l := by
      intro l hl
      rw [List.filter_eq_self]
      intro q hq
      simpa using hl q hq
    unfold deletePlant
    rw [List.filter_append, List.filter_cons, hself l₁ hl₁, hself l₂ hl₂,
      if_neg (by simp [hpid])]

theorem deletePlant_spec_witness :
    deletePlant [mkPlant 1 3 0 3, mkPlant 2 4 0 4] 2 = [mkPlant 1 3 0 3] ∧
    deletePlant [mkPlant 1 3 0 3, mkPlant 2 4 0 4] 7 =
      [mkPlant 1 3 0 3, mkPlant 2 4 0 4] :=
  ⟨by
    have := (deletePlant_spec [mkPlant 1 3 0 3, mkPlant 2 4 0 4] 2 (by decide)).2
      [mkPlant 1 3 0 3] (mkPlant 2 4 0 4) [] rfl rfl
    simpa using this,
   (deletePlant_spec [mkPlant 1 3 0 3, mkPlant 2 4 0 4] 7 (by decide)).1
    (by decide)⟩

/-- C7 (counterexample): the frequency onChange handler stores a parsed
out-of-range value unchanged. An input parsing to 50 is stored as 50
(neither clamped into [1, 30] nor defaulted to 1), and a draft carrying
frequency 50 with a non-empty name is passed to add on submission. -/
theorem wateringFrequency_not_clamped_counterexample :
    wateringFrequencyOnChange (some 50) = 50 ∧
    ¬ wateringFrequencyOnChange (some 50) ≤ 30 ∧
    wateringFrequencyOnChange (some 50) ≠ 1 ∧
    handleSubmit
        { sampleDraft with wateringFrequency := wateringFrequencyOnChange (some 50) } =
      some { sampleDraft with wateringFrequency := 50 } := by
  decide

/-- C7 (amended): a name that is empty or only whitespace blocks
submission, so no plant is added, and a non-blank name submits the draft
unchanged; the watering-frequency input handler defaults a failed parse
(NaN) or a parsed 0 to 1, and stores every other parsed integer
unchanged, including values outside [1, 30]. -/
theorem handleSubmit_spec (formData : PlantDraft) (n : Int) :
    (trimChars formData.name.data = [] → handleSubmit formData = none) ∧
    (trimChars formData.name.data ≠ [] → handleSubmit formData = some formData) ∧
    wateringFrequencyOnChange none = 1 ∧
    wateringFrequencyOnChange (some 0) = 1 ∧
    (n ≠ 0 → wateringFrequencyOnChange (some n) = n) := by
  refine ⟨fun h => ?_, fun h => ?_, rfl, rfl, fun h => ?_⟩
  · simp [handleSubmit, h]
  · simp [handleSubmit, h]
  · simp [wateringFrequencyOnChange, h]

theorem handleSubmit_spec_witness :
    handleSubmit { sampleDraft with name := "   " } = none ∧
    handleSubmit sampleDraft = some sampleDraft ∧
    wateringFrequencyOnChange (some 5) = 5 :=
  ⟨(handleSubmit_spec { sampleDraft with name := "   " } 5).1 (by decide),
   (handleSubmit_spec sampleDraft 5).2.1 (by decide),
   (handleSubmit_spec sampleDraft 5).2.2.2.2 (by decide)⟩

theorem waterPlant_spec_witness :
    waterPlant [mkPlant 1 3 0 3, mkPlant 2 4 0 4] 9 20 =
      [mkPlant 1 3 0 3, mkPlant 2 4 0 4] ∧
    waterPlant [mkPlant 1 3 0 3, mkPlant 2 4 0 4] 1 20 =
      [mkPlant 1 3 20 23, mkPlant 2 4 0 4] := by
  constructor
  · exact (waterPlant_spec [mkPlant 1 3 0 3, mkPlant 2 4 0 4] 9 20 (by decide)).1
      (by decide)
  · have h := (waterPlant_spec [mkPlant 1 3 0 3, mkPlant 2 4 0 4] 1 20 (by decide)).2
      ⟨mkPlant 1 3 0 3, List.mem_cons_self _ _, rfl⟩
    rw [h]
    decide

/-- C8: the dashboard need-watering count equals the number of entries
with nextWatering ≤ today (0 for the empty collection, with empty due
and upcoming lists); the upcoming list consists of entries with
nextWatering > today, is sorted ascending by next-watering date, and is
the 5-entry truncation of the sorted list of all such entries. -/
theorem dashboard_spec (plants : List Plant) (today : Int) :
    needWateringCount plants today =
      plants.countP (fun plant => plant.nextWatering ≤ today) ∧
    needWateringCount [] today = 0 ∧
    plantsNeedingWater [] today = [] ∧
    upcomingWatering [] today = [] ∧
    (∀ p ∈ upcomingWatering plants today, today < p.nextWatering) ∧
    List.Sorted byNextWatering (upcomingWatering plants today) ∧
    (upcomingWatering plants today).length ≤ 5 ∧
    ∃ sorted : List Plant,
      sorted.Perm (plants.filter (fun plant => today < plant.nextWatering)) ∧
      List.Sorted byNextWatering sorted ∧
      upcomingWatering plants today = sorted.take 5 := by
  refine ⟨(List.countP_eq_length_filter _ _).symm, rfl, rfl, rfl, ?_, ?_, ?_, ?_⟩
  · intro p hp
    have hp' : p ∈ List.insertionSort byNextWatering
        (plants.filter (fun plant => today < plant.nextWatering)) :=
      List.mem_of_mem_take hp
    have hp'' : p ∈ plants.filter (fun plant => today < plant.nextWatering) :=
      (List.perm_insertionSort byNextWatering _).mem_iff.mp hp'
    exact of_decide_eq_true (List.mem_filter.mp hp'').2
  · exact List.Pairwise.sublist (List.take_sublist 5 _)
      (List.sorted_insertionSort byNextWatering _)
  · exact List.length_take_le 5 _
  · exact ⟨List.insertionSort byNextWatering _,
      List.perm_insertionSort byNextWatering _,
      List.sorted_insertionSort byNextWatering _, rfl⟩

theorem dashboard_spec_witness :
    needWateringCount [mkPlant 1 3 0 3, mkPlant 2 3 0 20] 10 =
      List.countP (fun plant => plant.nextWatering ≤ 10)
        [mkPlant 1 3 0 3, mkPlant 2 3 0 20] ∧
    (10 : Int) < (mkPlant 2 3 0 20).nextWatering :=
  ⟨(dashboard_spec [mkPlant 1 3 0 3, mkPlant 2 3 0 20] 10).1,
   (dashboard_spec [mkPlant 1 3 0 3, mkPlant 2 3 0 20] 10).2.2.2.2.1
    (mkPlant 2 3 0 20) (by decide)⟩

/-- C9: a plant is in the filtered list iff it is in the collection, the
lowercased search text is a substring of its lowercased name or of its
lowercased type, and the filter is "all" or the plant's type equals the
filter; in particular, search text "rose" matches the plant named
"Rose" and the plant of type "Rosemary". -/
theorem filteredPlants_spec (plants : List Plant) (searchTerm filterType : String) :
    (∀ p : Plant, p ∈ filteredPlants plants searchTerm filterType ↔
      p ∈ plants ∧
      (lowerData searchTerm <:+: lowerData p.name ∨
        lowerData searchTerm <:+: lowerData p.«type») ∧
      (filterType = "all" ∨ p.«type» = filterType)) ∧
    rosePlant ∈ filteredPlants [rosePlant, rosemaryPlant] "rose" "all" ∧
    rosemaryPlant ∈ filteredPlants [rosePlant, rosemaryPlant] "rose" "all" := by
  refine ⟨?_, by decide, by decide⟩
  intro p
  simp only [filteredPlants, List.mem_filter, plantMatches, Bool.and_eq_true,
    Bool.or_eq_true, decide_eq_true_eq, beq_iff_eq]

theorem filteredPlants_spec_witness :
    rosemaryPlant ∈ [rosePlant, rosemaryPlant] ∧
    (lowerData "rose" <:+: lowerData rosemaryPlant.name ∨
      lowerData "rose" <:+: lowerData rosemaryPlant.«type») ∧
    (("all" : String) = "all" ∨ rosemaryPlant.«type» = "all") :=
  ((filteredPlants_spec [rosePlant, rosemaryPlant] "rose" "all").1
    rosemaryPlant).mp (by decide)

/-- C10: updating with an id that matches no entry leaves the
collection unchanged. -/
theorem updatePlant_no_match (plants : List Plant) (plantId : Int) (u : PlantUpdate)
    (h : ∀ p ∈ plants, p.id ≠ plantId) :
    updatePlant plants plantId u = plants := by
  unfold updatePlant
  have hpt : ∀ p ∈ plants, (if p.id = plantId then applyUpdate p u else p) = p :=
    fun p hp => if_neg (h p hp)
  rw [List.map_congr_left hpt]
  exact List.map_id' plants

theorem updatePlant_no_match_witness :
    updatePlant [mkPlant 1 3 0 3, mkPlant 2 4 0 4] 9 { name := some "Fern" } =
      [mkPlant 1 3 0 3, mkPlant 2 4 0 4] :=
  updatePlant_no_match [mkPlant 1 3 0 3, mkPlant 2 4 0 4] 9 { name := some "Fern" }
    (by decide)

end PlantCare
